import Mathlib

/-!
Shallow embedding of the SymptoGuide backend (`src/backend/app.py`) and
verification of the frozen claims about it.

Conventions of the embedding:
* Python strings are `String`; Python lists are `List`.
* The Python `set` of lowered symptoms is only ever used through membership
  tests, so it is embedded as the lowered list together with membership.
* Python floats appearing in the hospital pipeline are `QFloat`: an explicit
  NaN — which `haversine_distance_km` can return and the pipeline stores as a
  non-None distance — plus finite values abstracted as rationals, whose
  comparisons agree with the rational order.  The distance calculator itself,
  whose claims are about NaN and exception behaviour, gets a dedicated float
  model (`PyFloat`) with an explicit NaN and real-valued finite part.
* Fallible Python code (`try`/`except`, raising builtins) is embedded with
  `Except` / `Option`.
-/

/- ===================================================================
   Shared string helpers
   =================================================================== -/

/-- Python `str.lower()` restricted to ASCII, which covers every string the
program lowercases; modelled character-wise so the kernel can evaluate it. -/
def pyLower (s : String) : String := ⟨s.data.map Char.toLower⟩

/-- Helper for `strInB`: the first list is an initial segment of the second. -/
def listIsPre : List Char → List Char → Bool
  | [], _ => true
  | _ :: _, [] => false
  | a :: as, b :: bs => a == b && listIsPre as bs

/-- Python substring test `needle in hay` on strings: `needle` occurs as a
contiguous substring of `hay` (the empty needle always matches). -/
def strInB (needle hay : String) : Bool :=
  hay.data.tails.any (fun t => listIsPre needle.data t)

/-- Python `str.strip()` with no argument: remove leading and trailing
whitespace; modelled over the character list so the kernel can evaluate it. -/
def pyStrip (s : String) : String :=
  ⟨((s.data.dropWhile Char.isWhitespace).reverse.dropWhile
      Char.isWhitespace).reverse⟩

/- ===================================================================
   Triage Evaluator: `POST /api/assess` (app.py lines 36-108)
   =================================================================== -/

/-- Red-flag symptom set from `assess` (app.py lines 46-53).  The Python `set`
is modelled as a list, used only through membership. -/
def red_flag_symptoms : List String :=
  ["chest pain", "difficulty breathing", "shortness of breath",
   "loss of consciousness", "severe bleeding", "sudden weakness"]

/-- Durations that escalate concern to "moderate" (app.py line 61). -/
def long_durations : List String := ["week", "weeks", "month", "chronic"]

/-- Concern-level decision chain of `assess` (app.py lines 44-64): the
variable starts at "low" and the first matching branch overwrites it. -/
def concern_of (symptoms : List String) (severity duration : String) : String :=
  let lower_symptoms := symptoms.map pyLower
  if lower_symptoms.any (fun s => red_flag_symptoms.contains s) then "high"
  else if severity = "severe" then "high"
  else if severity = "moderate" || long_durations.contains duration then "moderate"
  else if 3 ≤ symptoms.length then "moderate"
  else "low"

/-- Department inference chain of `assess` (app.py lines 66-83), first match
wins, default "Primary Care".  Takes the lowered symptom list; each keyword is
tested for (exact) membership in that list, as Python tests `k in
lower_symptoms` on the set of lowered symptoms. -/
def infer_department (lower_symptoms : List String) : String :=
  if ["stomach pain", "abdominal pain", "nausea", "vomiting", "diarrhea",
      "bloating"].any (fun k => lower_symptoms.contains k) then "Gastroenterology"
  else if ["chest pain", "palpitations", "heart"].any
      (fun k => lower_symptoms.contains k) then "Cardiology"
  else if ["shortness of breath", "breathlessness", "cough", "wheezing"].any
      (fun k => lower_symptoms.contains k) then "Pulmonology"
  else if ["headache", "migraine", "dizziness", "numbness", "seizure"].any
      (fun k => lower_symptoms.contains k) then "Neurology"
  else if ["rash", "itching", "skin", "hives"].any
      (fun k => lower_symptoms.contains k) then "Dermatology"
  else "Primary Care"

/-- Construction of `recommended_departments` (app.py lines 85-97): start
empty, append "Emergency" on high concern, append the inferred department when
it is not "Primary Care", and fall back to a one-element default when still
empty. -/
def recommended_departments_of (concern dept : String) : List String :=
  let r0 : List String := []
  let r1 := if concern = "high" then r0 ++ ["Emergency"] else r0
  let r2 := if dept ≠ "Primary Care" then r1 ++ [dept] else r1
  if r2 = [] then
    (if concern = "moderate" then ["General Medicine"] else ["Primary Care"])
  else r2

/-- JSON body returned by `POST /api/assess` (app.py lines 99-108). -/
structure AssessmentResult where
  concern_level : String
  suggestions : List String
  recommended_departments : List String
deriving DecidableEq

/-- The `assess` handler (app.py lines 36-108) as a pure function of the
decoded request fields. -/
def assess (symptoms : List String) (severity duration : String) :
    AssessmentResult :=
  let concern := concern_of symptoms severity duration
  let dept := infer_department (symptoms.map pyLower)
  { concern_level := concern
    suggestions :=
      ["This is a preliminary assessment and not a diagnosis.",
       "If concern is high, seek emergency care."]
    recommended_departments := recommended_departments_of concern dept }

/- ===================================================================
   Claims C3, C6, C7 about the Triage Evaluator
   =================================================================== -/

/-- C3: any report whose lowered symptoms contain a red-flag symptom is
assessed with concern level "high", whatever the severity and duration. -/
theorem C3_red_flag_forces_high (symptoms : List String)
    (severity duration : String)
    (h : ∃ s, s ∈ symptoms ∧ pyLower s ∈ red_flag_symptoms) :
    (assess symptoms severity duration).concern_level = "high" := by
  obtain ⟨s, hs, hred⟩ := h
  have hany : (symptoms.map pyLower).any
      (fun t => red_flag_symptoms.contains t) = true := by
    refine List.any_eq_true.mpr ⟨pyLower s, List.mem_map_of_mem _ hs, ?_⟩
    simpa using hred
  simp only [assess, concern_of, hany]
  simp

/-- Witness for C3 at a concrete input. -/
theorem C3_red_flag_forces_high_witness :
    (assess ["Chest Pain", "fatigue"] "mild" "day").concern_level = "high" :=
  C3_red_flag_forces_high ["Chest Pain", "fatigue"] "mild" "day"
    ⟨"Chest Pain", by decide, by decide⟩

/-- C6: on symptoms ["headache","nausea","rash"] with severity "mild" and
duration "day", concern is "moderate" — the red-flag, severity and duration
branches are all off and the three-symptom rule fires — and the inferred
department is "Gastroenterology", the Gastroenterology rule (matching
"nausea") preceding the Neurology and Dermatology rules in the chain. -/
theorem C6_three_symptoms_gastro_priority :
    (assess ["headache", "nausea", "rash"] "mild" "day").concern_level
      = "moderate" ∧
    infer_department (["headache", "nausea", "rash"].map pyLower)
      = "Gastroenterology" ∧
    (assess ["headache", "nausea", "rash"] "mild" "day").recommended_departments
      = ["Gastroenterology"] ∧
    (["headache", "nausea", "rash"].map pyLower).any
      (fun s => red_flag_symptoms.contains s) = false ∧
    long_durations.contains "day" = false ∧
    3 ≤ (["headache", "nausea", "rash"] : List String).length := by
  decide

/-- C7: on symptoms ["chest pain"] with empty severity and duration, concern
is "high" and the recommended departments are exactly ["Emergency",
"Cardiology"], so both appear with "Emergency" first. -/
theorem C7_chest_pain_emergency_before_cardiology :
    (assess ["chest pain"] "" "").concern_level = "high" ∧
    (assess ["chest pain"] "" "").recommended_departments
      = ["Emergency", "Cardiology"] := by
  decide

/- ===================================================================
   Distance Calculator: `haversine_distance_km` (app.py lines 15-28)
   =================================================================== -/

/-- Python float for the distance calculator: an explicit NaN plus a
real-valued finite part.  Infinities/overflow never arise at the magnitudes
involved, so they are outside the modelled range. -/
inductive PyFloat where
  | nan : PyFloat
  | fin : ℝ → PyFloat

/-- Python exceptions raised (and caught) by the modelled code. -/
inductive PyErr where
  | typeError : PyErr
  | valueError : PyErr
  | zeroDivisionError : PyErr
deriving DecidableEq

/-- Python value passed to `haversine_distance_km`: a float, or a non-numeric
value (a string, or None), on which `math.radians` raises `TypeError`. -/
inductive PyVal where
  | float : PyFloat → PyVal
  | str : String → PyVal
  | none : PyVal

/-- Is the value a float? -/
def PyVal.isNum : PyVal → Bool
  | .float _ => true
  | _ => false

/-- IEEE addition restricted to the modelled range: NaN propagates. -/
noncomputable def PyFloat.add : PyFloat → PyFloat → PyFloat
  | .nan, _ => .nan
  | .fin _, .nan => .nan
  | .fin x, .fin y => .fin (x + y)

/-- IEEE subtraction: NaN propagates. -/
noncomputable def PyFloat.sub : PyFloat → PyFloat → PyFloat
  | .nan, _ => .nan
  | .fin _, .nan => .nan
  | .fin x, .fin y => .fin (x - y)

/-- IEEE multiplication: NaN propagates (also through a zero factor). -/
noncomputable def PyFloat.mul : PyFloat → PyFloat → PyFloat
  | .nan, _ => .nan
  | .fin _, .nan => .nan
  | .fin x, .fin y => .fin (x * y)

/-- Python `x ** 2` on floats: NaN propagates (the exponent is the literal 2,
so the `nan ** 0 = 1` corner never applies). -/
noncomputable def PyFloat.pow2 : PyFloat → PyFloat
  | .nan => .nan
  | .fin x => .fin (x ^ 2)

/-- Python float division: dividing by (exact) zero raises
`ZeroDivisionError` even for a NaN numerator; otherwise NaN propagates. -/
noncomputable def PyFloat.div : PyFloat → PyFloat → Except PyErr PyFloat
  | _, .nan => .ok .nan
  | .nan, .fin y =>
      if y = 0 then .error .zeroDivisionError else .ok .nan
  | .fin x, .fin y =>
      if y = 0 then .error .zeroDivisionError else .ok (.fin (x / y))

/-- The finite part of `math.radians`: degrees to radians. -/
noncomputable def pyDegToRad : PyFloat → PyFloat
  | .nan => .nan
  | .fin x => .fin (x * Real.pi / 180)

/-- Python `math.radians`: `TypeError` on a non-float argument, NaN maps to
NaN, a finite value is converted to radians. -/
noncomputable def pyRadians : PyVal → Except PyErr PyFloat
  | .float f => .ok (pyDegToRad f)
  | .str _ => .error .typeError
  | .none => .error .typeError

/-- Python `math.sin`: NaN maps to NaN, never raises. -/
noncomputable def pySin : PyFloat → PyFloat
  | .nan => .nan
  | .fin x => .fin (Real.sin x)

/-- Python `math.cos`: NaN maps to NaN, never raises. -/
noncomputable def pyCos : PyFloat → PyFloat
  | .nan => .nan
  | .fin x => .fin (Real.cos x)

/-- Python `math.sqrt`: NaN maps to NaN; a negative finite argument raises
`ValueError` (math domain error). -/
noncomputable def pySqrt : PyFloat → Except PyErr PyFloat
  | .nan => .ok .nan
  | .fin x => if x < 0 then .error .valueError else .ok (.fin (Real.sqrt x))

/-- Python `math.asin`: NaN maps to NaN; a finite argument outside [-1, 1]
raises `ValueError` (math domain error). -/
noncomputable def pyAsin : PyFloat → Except PyErr PyFloat
  | .nan => .ok .nan
  | .fin x =>
      if x < -1 ∨ 1 < x then .error .valueError else .ok (.fin (Real.arcsin x))

/-- Body of the `try:` block of `haversine_distance_km` (app.py lines 20-26):
the four `map(radians, ...)` conversions (the tuple unpacking forces them left
to right, the first exception escaping), then the haversine formula with Earth
radius 6371 km.  An `Except.error` is a raised exception. -/
noncomputable def haversineBody (lat1 lon1 lat2 lon2 : PyVal) :
    Except PyErr PyFloat :=
  match pyRadians lat1 with
  | .error e => .error e
  | .ok la1 =>
  match pyRadians lon1 with
  | .error e => .error e
  | .ok lo1 =>
  match pyRadians lat2 with
  | .error e => .error e
  | .ok la2 =>
  match pyRadians lon2 with
  | .error e => .error e
  | .ok lo2 =>
  let dlon := lo2.sub lo1
  let dlat := la2.sub la1
  match dlat.div (.fin 2) with
  | .error e => .error e
  | .ok hdlat =>
  match dlon.div (.fin 2) with
  | .error e => .error e
  | .ok hdlon =>
  let a := ((pySin hdlat).pow2).add
    (((pyCos la1).mul (pyCos la2)).mul ((pySin hdlon).pow2))
  match pySqrt a with
  | .error e => .error e
  | .ok sq =>
  match pyAsin sq with
  | .error e => .error e
  | .ok asv => .ok ((PyFloat.fin 6371).mul ((PyFloat.fin 2).mul asv))

/-- `haversine_distance_km` (app.py lines 15-28): the body wrapped in
`try: ... except Exception: return None`. -/
noncomputable def haversine_distance_km (lat1 lon1 lat2 lon2 : PyVal) :
    Option PyFloat :=
  match haversineBody lat1 lon1 lat2 lon2 with
  | .ok v => some v
  | .error _ => Option.none

/-- Evaluation of the distance calculator at a NaN latitude: the NaN flows
through every arithmetic step and comes back as a NaN float, not as None. -/
theorem haversine_nan_eval :
    haversine_distance_km (.float .nan) (.float (.fin 0)) (.float (.fin 0))
      (.float (.fin 0)) = some PyFloat.nan := by
  have h2 : ¬((2 : ℝ) = 0) := two_ne_zero
  simp [haversine_distance_km, haversineBody, pyRadians, pyDegToRad,
    PyFloat.sub, PyFloat.div, pySin, pyCos, pySqrt, pyAsin, PyFloat.mul,
    PyFloat.add, PyFloat.pow2, h2]

/-- C4 counterexample: the claim says a NaN numeric input yields the unknown
(null) result, but with a NaN latitude the function returns the NaN float
itself — a non-null result. -/
theorem C4_nan_not_null_counterexample :
    haversine_distance_km (.float .nan) (.float (.fin 0)) (.float (.fin 0))
        (.float (.fin 0)) = some PyFloat.nan ∧
    haversine_distance_km (.float .nan) (.float (.fin 0)) (.float (.fin 0))
        (.float (.fin 0)) ≠ Option.none := by
  refine ⟨haversine_nan_eval, ?_⟩
  rw [haversine_nan_eval]
  exact fun h => Option.noConfusion h

/-- C4 amended: the distance calculator never raises (every internal
exception is caught and turned into None), and a non-numeric argument in any
position yields None; a NaN numeric argument, however, propagates to a NaN
return value instead of None. -/
theorem C4_amended_no_raise_nonnumeric_null :
    (∀ v1 v2 v3 v4 : PyVal,
      (v1.isNum = false ∨ v2.isNum = false ∨ v3.isNum = false ∨
        v4.isNum = false) →
      haversine_distance_km v1 v2 v3 v4 = Option.none) ∧
    haversine_distance_km (.float .nan) (.float (.fin 0)) (.float (.fin 0))
      (.float (.fin 0)) = some PyFloat.nan := by
  refine ⟨?_, haversine_nan_eval⟩
  intro v1 v2 v3 v4 h
  rcases h with h | h | h | h <;>
    cases v1 <;> cases v2 <;> cases v3 <;> cases v4 <;>
      simp_all [haversine_distance_km, haversineBody, pyRadians, PyVal.isNum]

/-- Witness for the amended C4 theorem at a concrete non-numeric input. -/
theorem C4_amended_no_raise_nonnumeric_null_witness :
    haversine_distance_km (.str "not a number") (.float (.fin 0))
      (.float (.fin 0)) (.float (.fin 0)) = Option.none :=
  C4_amended_no_raise_nonnumeric_null.1 _ _ _ _ (Or.inl rfl)

/- ===================================================================
   Hospital Finder: records, sorting, filtering, fallback
   (app.py lines 184-333)
   =================================================================== -/

/-- A float stored in the hospital pipeline: NaN — which
`haversine_distance_km` returns on NaN coordinates (see the C4 theorems) and
which the handler then stores as a non-None `distance_km` — or a finite value
abstracted as a rational. -/
inductive QFloat where
  | nan : QFloat
  | fin : ℚ → QFloat
deriving DecidableEq

/-- One entry of `hospitals_all` (app.py lines 240-254).  Finite float fields
are abstracted as rationals (the pipeline only stores and compares them);
`distance_km` keeps the explicit NaN. -/
structure Facility where
  id : String
  name : String
  address : String
  lat : Option ℚ
  lng : Option ℚ
  emergency : Bool
  phone : String
  specialties : List String
  has_specialties : Bool
  rating : ℚ
  distance_km : Option QFloat
deriving DecidableEq

/-- Specialty inference (app.py lines 205-223): eight independent checks over
the lowered name and lowered category tags, appending in a fixed order.  The
callers compute `name_lower` and `cats_lower` before these checks, so the
function takes the lowered strings. -/
def inferred_specialties_of (name_lower : String) (cats_lower : List String) :
    List String :=
  (if cats_lower.any (fun c => strInB "cardio" c || strInB "heart" c)
      || strInB "cardio" name_lower || strInB "heart" name_lower
    then ["Cardiology"] else []) ++
  ((if cats_lower.any (fun c => strInB "gastro" c) || strInB "gastro" name_lower
    then ["Gastroenterology"] else []) ++
  ((if cats_lower.any (fun c => strInB "neuro" c) || strInB "neuro" name_lower
    then ["Neurology"] else []) ++
  ((if cats_lower.any (fun c => strInB "dermatology" c)
      || strInB "derma" name_lower || strInB "skin" name_lower
    then ["Dermatology"] else []) ++
  ((if strInB "ent" name_lower || strInB "ear nose throat" name_lower
    then ["ENT"] else []) ++
  ((if cats_lower.any (fun c => strInB "ortho" c) || strInB "ortho" name_lower
      || strInB "bone" name_lower
    then ["Orthopedics"] else []) ++
  ((if strInB "dent" name_lower || strInB "dental" name_lower
      || strInB "dentist" name_lower
    then ["Dental"] else []) ++
  (if strInB "surgical" name_lower then ["Surgery"] else [])))))))

/-- Every specialty string the inference can ever append, in rule order. -/
def all_inferred_specialties : List String :=
  ["Cardiology", "Gastroenterology", "Neurology", "Dermatology", "ENT",
   "Orthopedics", "Dental", "Surgery"]

/-- Emergency flag of a record (app.py lines 225-229). -/
def emergency_flag_of (name_lower opening_hours : String) : Bool :=
  strInB "emergency" name_lower || strInB "er" name_lower ||
    strInB "24/7" opening_hours

/-- The Python sort key (app.py lines 257-262): the pair of "distance is
unknown" and the distance with 99999 substituted when unknown. -/
def facility_sort_key (h : Facility) : Bool × QFloat :=
  (h.distance_km.isNone, h.distance_km.getD (QFloat.fin 99999))

/-- Python `==` on pipeline floats: NaN compares unequal to everything,
itself included. -/
def qfloatEqb : QFloat → QFloat → Bool
  | .fin a, .fin b => a == b
  | _, _ => false

/-- Python `<` on pipeline floats: every comparison involving NaN is false,
so the order is not total when NaN occurs. -/
def qfloatLtb : QFloat → QFloat → Bool
  | .fin a, .fin b => decide (a < b)
  | _, _ => false

/-- Python `<` on sort-key tuples: compare componentwise, the first position
where the components are not `==` decides with `<`, and tuples with all
components `==` are not less.  Bool first (`False < True`), then the float.
Not total when a NaN float occurs. -/
def keyLt (x y : Bool × QFloat) : Bool :=
  if x.1 == y.1 then
    (if qfloatEqb x.2 y.2 then false else qfloatLtb x.2 y.2)
  else decide (x.1 < y.1)

/-- Python `<` between the sort keys of two facilities — the only comparison
`list.sort` performs. -/
def facility_lt (a b : Facility) : Bool :=
  keyLt (facility_sort_key a) (facility_sort_key b)

/-- "Not strictly greater": CPython's merges and insertions take the earlier
element unless the later one is strictly `<`-smaller, so a stable sort driven
by `facility_lt` is a stable merge sort under this comparison whenever `<` is
a strict weak order — which holds exactly when no NaN key occurs. -/
def facility_le (a b : Facility) : Bool := !(facility_lt b a)

/-- `hospitals_all.sort(key=...)` (app.py lines 257-262): Python `list.sort`
is a stable sort comparing keys with `<`.  On NaN-free keys `<` is a strict
weak order and every stable sort — in particular stable merge sort under
`facility_le` — produces the same list, so this model is exact there; on NaN
keys `<` is not total and CPython's concrete algorithm (`pysort_small`
below) decides the order, see the C1 counterexample. -/
def sort_hospitals (l : List Facility) : List Facility :=
  l.mergeSort facility_le

/-- The synonym table of `matches_department` (app.py lines 276-286), as the
insertion-ordered list of entries of the Python dict (keys are distinct). -/
def department_synonyms : List (String × List String) :=
  [("dental", ["dental", "dentist"]),
   ("orthopedics", ["ortho", "orthopedics", "bone"]),
   ("cardiology", ["cardio", "cardiology", "heart"]),
   ("neurology", ["neuro", "neurology"]),
   ("dermatology", ["derma", "dermatology", "skin"]),
   ("gastroenterology", ["gastro", "gastroenterology"]),
   ("ent", ["ent", "ear", "nose", "throat"]),
   ("primary care", ["general", "primary", "family"]),
   ("general medicine", ["general", "medicine", "gp", "general medicine"])]

/-- `matches_department` (app.py lines 265-294).  The for-loop over the
synonym dict with early `return True` is the `any` over its entries. -/
def matches_department (h : Facility) (dept : String) : Bool :=
  if dept = "" then true
  else
    let dept_norm := pyLower dept
    if dept_norm = "emergency" then
      h.emergency || h.specialties.any (fun s => strInB "emergency" (pyLower s))
    else
      let specialties_lower := h.specialties.map pyLower
      if specialties_lower.any (fun s => strInB dept_norm s) then true
      else
        let name_addr_lower := pyLower (h.name ++ " " ++ h.address)
        department_synonyms.any (fun kv =>
          kv.1 == dept_norm && kv.2.any (fun v => strInB v name_addr_lower))

/-- Department filter and fallback (app.py lines 296-302), applied to the
already-sorted list: when a department was requested and nothing matched,
return the first 15 unfiltered records with `fallback_used = true`. -/
def apply_fallback (sorted_hospitals : List Facility) (department : String) :
    List Facility × Bool :=
  let filtered := sorted_hospitals.filter
    (fun h => matches_department h department)
  if department ≠ "" ∧ filtered = [] then (sorted_hospitals.take 15, true)
  else (filtered, false)

/-- The record list of the `/api/nearby-hospitals` response, in response
order, paired with `fallback_used` (app.py lines 256-333; the final
formatting loop maps records one-to-one, preserving order). -/
def nearby_response (hospitals_all : List Facility) (department : String) :
    List Facility × Bool :=
  apply_fallback (sort_hospitals hospitals_all) department

/- ===================================================================
   Claim C1: response ordering
   =================================================================== -/

/-- Ordering relation asserted by the claim for records adjacent in order:
a record with unknown (None) distance is never followed by a known one, and
finite known distances are non-decreasing. -/
def DistanceOrdered (a b : Facility) : Prop :=
  (a.distance_km = Option.none → b.distance_km = Option.none) ∧
  (∀ x y : ℚ, a.distance_km = some (QFloat.fin x) →
    b.distance_km = some (QFloat.fin y) → x ≤ y)

theorem keyLt_irrefl (k : Bool × QFloat) : keyLt k k = false := by
  rcases k with ⟨a, u⟩; cases u <;> simp [keyLt, qfloatEqb, qfloatLtb]

theorem keyLt_asymm (x y : Bool × QFloat)
    (h1 : keyLt x y = true) (h2 : keyLt y x = true) : False := by
  rcases x with ⟨a, u⟩; rcases y with ⟨b, v⟩
  cases a <;> cases b <;> cases u <;> cases v <;>
    simp_all [keyLt, qfloatEqb, qfloatLtb, Bool.lt_iff] <;> linarith

/-- Characterisation of the key `<` on NaN-free (finite) second components:
a genuine strict lexicographic order. -/
theorem keyLt_fin_eq_true_iff (a b : Bool) (p q : ℚ) :
    keyLt (a, QFloat.fin p) (b, QFloat.fin q) = true ↔
      ((a = b ∧ p < q) ∨ (a = false ∧ b = true)) := by
  cases a <;> cases b <;> by_cases hpq : p = q <;>
    simp [keyLt, qfloatEqb, qfloatLtb, hpq]

theorem facility_lt_asymm (a b : Facility)
    (h1 : facility_lt a b = true) (h2 : facility_lt b a = true) : False :=
  keyLt_asymm _ _ h1 h2

theorem facility_le_total (a b : Facility) :
    facility_le a b || facility_le b a := by
  simp only [facility_le, Bool.or_eq_true, Bool.not_eq_true']
  cases hx : facility_lt b a
  · exact Or.inl rfl
  · cases hy : facility_lt a b
    · exact Or.inr rfl
    · exact (facility_lt_asymm a b hy hx).elim

theorem facility_le_of_key_eq (a b : Facility)
    (h : facility_sort_key a = facility_sort_key b) :
    facility_le a b = true := by
  simp [facility_le, facility_lt, h, keyLt_irrefl]

theorem facility_le_imp_ordered (a b : Facility)
    (h : facility_le a b = true) : DistanceOrdered a b := by
  simp only [facility_le, facility_lt, Bool.not_eq_true'] at h
  constructor
  · intro hano
    rcases hb : b.distance_km with _ | d
    · rfl
    · simp [facility_sort_key, keyLt, hano, hb] at h
  · intro x y hax hby
    have h1 : keyLt (false, QFloat.fin y) (false, QFloat.fin x) = false := by
      simpa [facility_sort_key, hax, hby] using h
    rw [Bool.eq_false_iff, Ne, keyLt_fin_eq_true_iff] at h1
    push_neg at h1
    exact h1.1 rfl

/-- The sort key of a facility whose distance is not NaN has a finite second
component (None turns into the 99999 placeholder). -/
theorem key_fin_of_nanFree (h : Facility)
    (hf : h.distance_km ≠ some QFloat.nan) :
    ∃ q : ℚ, (facility_sort_key h).2 = QFloat.fin q := by
  rcases hd : h.distance_km with _ | (_ | q)
  · exact ⟨99999, by simp [facility_sort_key, hd]⟩
  · exact absurd hd hf
  · exact ⟨q, by simp [facility_sort_key, hd]⟩

/-- On NaN-free facilities the "not strictly greater" comparison is
transitive (it is not on NaN keys, which is what breaks the claim). -/
theorem facility_le_trans_nf (a b c : Facility)
    (ha : a.distance_km ≠ some QFloat.nan)
    (hb : b.distance_km ≠ some QFloat.nan)
    (hc : c.distance_km ≠ some QFloat.nan)
    (h1 : facility_le a b = true) (h2 : facility_le b c = true) :
    facility_le a c = true := by
  obtain ⟨p, hp⟩ := key_fin_of_nanFree a ha
  obtain ⟨q, hq⟩ := key_fin_of_nanFree b hb
  obtain ⟨r, hr⟩ := key_fin_of_nanFree c hc
  have hka : facility_sort_key a
      = ((facility_sort_key a).1, QFloat.fin p) := by
    rw [← hp]
  have hkb : facility_sort_key b
      = ((facility_sort_key b).1, QFloat.fin q) := by
    rw [← hq]
  have hkc : facility_sort_key c
      = ((facility_sort_key c).1, QFloat.fin r) := by
    rw [← hr]
  simp only [facility_le, facility_lt, Bool.not_eq_true'] at h1 h2 ⊢
  rw [hkb, hka] at h1
  rw [hkc, hkb] at h2
  rw [hkc, hka]
  rw [Bool.eq_false_iff, Ne, keyLt_fin_eq_true_iff] at h1 h2 ⊢
  clear hka hkb hkc hp hq hr ha hb hc
  revert h1 h2
  generalize (facility_sort_key a).1 = ba
  generalize (facility_sort_key b).1 = bb
  generalize (facility_sort_key c).1 = bc
  intro h1 h2
  cases ba <;> cases bb <;> cases bc <;> simp_all <;> linarith

/-- NaN-free facilities: the subtype on which the key comparison is a total
preorder, used to apply the merge-sort lemmas. -/
abbrev nfFacility : Type := {h : Facility // h.distance_km ≠ some QFloat.nan}

/-- The key comparison restricted to NaN-free facilities. -/
def nf_le (a b : nfFacility) : Bool := facility_le a.val b.val

theorem nf_le_trans (a b c : nfFacility) (h1 : nf_le a b = true)
    (h2 : nf_le b c = true) : nf_le a c = true :=
  facility_le_trans_nf a.val b.val c.val a.property b.property c.property h1 h2

theorem nf_le_total (a b : nfFacility) : nf_le a b || nf_le b a :=
  facility_le_total a.val b.val

/-- Filtering through a map commutes. -/
theorem filter_map_eq {α β : Type} (f : α → β) (p : β → Bool) :
    ∀ l : List α, (l.filter (fun a => p (f a))).map f = (l.map f).filter p
  | [] => rfl
  | a :: t => by
    by_cases h : p (f a) = true <;>
      simp [List.filter_cons, h, filter_map_eq f p t]

/-- C1 (amended): when every computed distance is an actual number — which
is the case exactly when no NaN coordinate reached the distance calculator —
the sorted record list is pairwise `DistanceOrdered` (known distances first
and non-decreasing); records with equal sort keys — in particular all
unknown-distance records — keep their original source order (stability,
stated as filter-invariance per sort key); and the final response list
(after department filtering and possible fallback truncation) is a sublist
of the sorted list and therefore ordered the same way.  With a NaN distance
the key order is not total and the ordering fails on the real sort: see
`C1_nan_sort_counterexample`. -/
theorem C1_response_distance_sorted (hospitals_all : List Facility)
    (department : String)
    (hfree : ∀ h ∈ hospitals_all, h.distance_km ≠ some QFloat.nan) :
    (sort_hospitals hospitals_all).Pairwise DistanceOrdered ∧
    (∀ k : Bool × QFloat,
      (sort_hospitals hospitals_all).filter
          (fun h => facility_sort_key h == k)
        = hospitals_all.filter (fun h => facility_sort_key h == k)) ∧
    List.Sublist (nearby_response hospitals_all department).1
      (sort_hospitals hospitals_all) ∧
    ((nearby_response hospitals_all department).1).Pairwise DistanceOrdered := by
  classical
  let l : List nfFacility :=
    hospitals_all.attach.map (fun x => ⟨x.val, hfree x.val x.property⟩)
  have hl : l.map Subtype.val = hospitals_all := by
    simp only [l, List.map_map, Function.comp]
    exact (List.attach_map_val hospitals_all (fun x => x)).trans
      (List.map_id hospitals_all)
  have hmap : (l.mergeSort nf_le).map Subtype.val
      = sort_hospitals hospitals_all := by
    have hcomm := List.map_mergeSort (r := nf_le) (s := facility_le)
      (f := Subtype.val) (l := l) (fun a _ b _ => rfl)
    rw [hl] at hcomm
    simpa [sort_hospitals] using hcomm
  have hs : (l.mergeSort nf_le).Pairwise (fun a b => nf_le a b = true) := by
    simpa using List.sorted_mergeSort nf_le_trans nf_le_total l
  have hord : (sort_hospitals hospitals_all).Pairwise DistanceOrdered := by
    rw [← hmap]
    refine (List.pairwise_map).mpr ?_
    exact hs.imp (fun {a b} h => facility_le_imp_ordered a.val b.val h)
  have hstable : ∀ k : Bool × QFloat,
      (sort_hospitals hospitals_all).filter
          (fun h => facility_sort_key h == k)
        = hospitals_all.filter (fun h => facility_sort_key h == k) := by
    intro k
    set p : Facility → Bool := fun h => facility_sort_key h == k with hp
    have hcpair : (l.filter (fun x => p x.val)).Pairwise
        (fun a b => nf_le a b = true) := by
      refine List.pairwise_of_forall_mem_list ?_
      intro a ha b hb
      have hak : facility_sort_key a.val = k := by
        have := List.of_mem_filter ha
        simpa [hp] using this
      have hbk : facility_sort_key b.val = k := by
        have := List.of_mem_filter hb
        simpa [hp] using this
      exact facility_le_of_key_eq a.val b.val (hak.trans hbk.symm)
    have hsub : List.Sublist (l.filter (fun x => p x.val))
        (l.mergeSort nf_le) :=
      List.sublist_mergeSort nf_le_trans nf_le_total hcpair
        (List.filter_sublist l)
    have hsubm : List.Sublist (hospitals_all.filter p)
        (sort_hospitals hospitals_all) := by
      have hm := hsub.map Subtype.val
      rwa [filter_map_eq Subtype.val p l, hl, hmap] at hm
    have hsub2 : List.Sublist (hospitals_all.filter p)
        ((sort_hospitals hospitals_all).filter p) := by
      have hm := hsubm.filter p
      rwa [List.filter_filter, show ((fun h => p h && p h) = p) from by
        funext h; cases hph : p h <;> simp [hph]] at hm
    have hlen : ((sort_hospitals hospitals_all).filter p).length
        = (hospitals_all.filter p).length := by
      have hperm : List.Perm (sort_hospitals hospitals_all) hospitals_all := by
        simpa [sort_hospitals] using
          List.mergeSort_perm hospitals_all facility_le
      exact (hperm.filter p).length_eq
    exact (hsub2.eq_of_length hlen.symm).symm
  have hfinal_sub : List.Sublist (nearby_response hospitals_all department).1
      (sort_hospitals hospitals_all) := by
    by_cases hc : department ≠ "" ∧
        (sort_hospitals hospitals_all).filter
          (fun h => matches_department h department) = []
    · simp only [nearby_response, apply_fallback, if_pos hc]
      exact List.take_sublist _ _
    · simp only [nearby_response, apply_fallback, if_neg hc]
      exact List.filter_sublist _
  exact ⟨hord, hstable, hfinal_sub, hord.sublist hfinal_sub⟩

/-- A facility 3 km away (no matching specialties, irrelevant here). -/
def far_facility : Facility :=
  { id := "3", name := "Far Hospital", address := "North Road 3",
    lat := some 0, lng := some 0, emergency := false,
    phone := "Not available", specialties := [],
    has_specialties := false, rating := 9/2,
    distance_km := some (QFloat.fin 3) }

/-- A facility whose computed distance is NaN: reachable when the request
carries `lat=nan` (`float("nan")` parses) or the provider body contains a
NaN coordinate (`resp.json()` accepts the NaN literal), since
`haversine_distance_km` then returns NaN rather than None or an exception
(see the C4 theorems) and app.py line 252 stores it. -/
def nan_facility : Facility :=
  { id := "4", name := "Nan Hospital", address := "East Road 4",
    lat := some 0, lng := some 0, emergency := false,
    phone := "Not available", specialties := [],
    has_specialties := false, rating := 9/2,
    distance_km := some QFloat.nan }

/-- A facility 1 km away. -/
def near_facility : Facility :=
  { id := "5", name := "Near Hospital", address := "South Road 5",
    lat := some 0, lng := some 0, emergency := false,
    phone := "Not available", specialties := [],
    has_specialties := false, rating := 9/2,
    distance_km := some (QFloat.fin 1) }

/-- Witness for C1 at a concrete NaN-free candidate list. -/
theorem C1_response_distance_sorted_witness :
    (sort_hospitals [far_facility, near_facility]).Pairwise
      DistanceOrdered ∧
    (∀ k : Bool × QFloat,
      (sort_hospitals [far_facility, near_facility]).filter
          (fun h => facility_sort_key h == k)
        = [far_facility, near_facility].filter
            (fun h => facility_sort_key h == k)) ∧
    List.Sublist (nearby_response [far_facility, near_facility] "").1
      (sort_hospitals [far_facility, near_facility]) ∧
    ((nearby_response [far_facility, near_facility] "").1).Pairwise
      DistanceOrdered :=
  C1_response_distance_sorted [far_facility, near_facility] "" (by decide)

/-- Maximal not-`<`-descending continuation of a run, for `countRun`. -/
def natRunAsc {α : Type} (lt : α → α → Bool) : α → List α → List α × List α
  | _, [] => ([], [])
  | prev, c :: rest =>
    if lt c prev then ([], c :: rest)
    else
      let (r, t) := natRunAsc lt c rest
      (c :: r, t)

/-- Maximal strictly-`<`-descending continuation of a run, for `countRun`. -/
def natRunDesc {α : Type} (lt : α → α → Bool) : α → List α → List α × List α
  | _, [] => ([], [])
  | prev, c :: rest =>
    if lt c prev then
      let (r, t) := natRunDesc lt c rest
      (c :: r, t)
    else ([], c :: rest)

/-- CPython listsort `count_run`: the initial natural run — strictly
descending (then reversed) when the second element is `<`-below the first,
otherwise the maximal not-descending prefix. -/
def countRun {α : Type} (lt : α → α → Bool) : List α → List α × List α
  | [] => ([], [])
  | [a] => ([a], [])
  | a :: b :: rest =>
    if lt b a then
      let (r, t) := natRunDesc lt b rest
      ((a :: b :: r).reverse, t)
    else
      let (r, t) := natRunAsc lt b rest
      (a :: b :: r, t)

/-- CPython listsort `binarysort` search: the insertion index of `pivot`
within the sorted prefix `xs[0..high)` — `while low < high: mid :=
(low+high)/2; if pivot < xs[mid] then high := mid else low := mid+1` — which
places the pivot after equal elements (stability).  The first argument only
fuels the loop; `high - low + 1` steps always suffice. -/
def bsearchPos {α : Type} (lt : α → α → Bool) (pivot : α) (xs : List α) :
    ℕ → ℕ → ℕ → ℕ
  | 0, low, _ => low
  | fuel + 1, low, high =>
    if low < high then
      let mid := (low + high) / 2
      if lt pivot (xs.getD mid pivot) then bsearchPos lt pivot xs fuel low mid
      else bsearchPos lt pivot xs fuel (mid + 1) high
    else low

/-- One `binarysort` insertion into the sorted prefix. -/
def binInsert {α : Type} (lt : α → α → Bool) (sorted_pre : List α)
    (x : α) : List α :=
  let pos := bsearchPos lt x sorted_pre (sorted_pre.length + 1) 0
    sorted_pre.length
  sorted_pre.take pos ++ x :: sorted_pre.drop pos

/-- CPython `list.sort` on fewer than 64 elements, where `minrun` is the
whole length and Timsort performs no merges: the initial natural run is
extended to the whole list by stable binary insertion.  This is the sort the
program runs on short provider responses whether or not the key order is
total; on a total key order it agrees with `sort_hospitals` (both are then
the unique stable sort), on NaN keys it does not. -/
def pysort_small {α : Type} (lt : α → α → Bool) (l : List α) : List α :=
  let (run, rest) := countRun lt l
  rest.foldl (binInsert lt) run

/-- C1 counterexample: on the reachable candidate list with distances
[3 km, NaN, 1 km] every `<` against the NaN key is false, so CPython
`count_run` sees no descent, takes the whole list as a single
non-descending run and `list.sort` returns it unchanged — the known
distances 3 and 1 then stand in strictly decreasing order, refuting the
frozen claim that known-distance records always appear non-decreasing. -/
theorem C1_nan_sort_counterexample :
    pysort_small facility_lt [far_facility, nan_facility, near_facility]
      = [far_facility, nan_facility, near_facility] ∧
    ¬ (pysort_small facility_lt
        [far_facility, nan_facility, near_facility]).Pairwise
        DistanceOrdered := by
  have heq : pysort_small facility_lt
      [far_facility, nan_facility, near_facility]
      = [far_facility, nan_facility, near_facility] := rfl
  refine ⟨heq, ?_⟩
  rw [heq]
  intro hp
  have hrel := (List.pairwise_cons.mp hp).1 near_facility (by simp)
  have h31 := hrel.2 3 1 rfl rfl
  norm_num at h31

/- ===================================================================
   Claims C2 and C9: department filter and fallback
   =================================================================== -/

/-- C2: with a requested department and a non-empty candidate list, a filter
that matches nothing makes the response the first 15 records of the sorted
unfiltered list with `fallback_used = true`; a filter with at least one match
returns exactly the matching records, in sorted order, with
`fallback_used = false`. -/
theorem C2_fallback_policy (hospitals_all : List Facility)
    (department : String) (hdep : department ≠ "")
    (_hne : hospitals_all ≠ []) :
    ((sort_hospitals hospitals_all).filter
        (fun h => matches_department h department) = [] →
      nearby_response hospitals_all department
        = ((sort_hospitals hospitals_all).take 15, true)) ∧
    ((sort_hospitals hospitals_all).filter
        (fun h => matches_department h department) ≠ [] →
      nearby_response hospitals_all department
        = ((sort_hospitals hospitals_all).filter
            (fun h => matches_department h department), false)) := by
  constructor <;> intro hf <;>
    simp [nearby_response, apply_fallback, hdep, hf]

/-- Facility used to exercise the fallback branch concretely. -/
def cardiology_facility : Facility :=
  { id := "1", name := "City Hospital", address := "Main Street 1",
    lat := some 0, lng := some 0, emergency := false,
    phone := "Not available", specialties := ["Cardiology"],
    has_specialties := true, rating := 9/2,
    distance_km := some (QFloat.fin 1) }

/-- Witness for C2: a "dental" request against a single cardiology facility
matches nothing, so the fallback fires. -/
theorem C2_fallback_policy_witness :
    nearby_response [cardiology_facility] "dental"
      = ((sort_hospitals [cardiology_facility]).take 15, true) :=
  (C2_fallback_policy [cardiology_facility] "dental" (by decide)
    (by decide)).1 (by simp only [sort_hospitals, List.mergeSort_singleton]; decide)

/-- C9: when a department is requested and the candidate list is empty, the
filter is empty, the fallback branch still fires, and the response is the
empty list with `fallback_used = true` — so `fallback_used = true` does not
imply any hospitals are returned. -/
theorem C9_fallback_on_empty_candidates (department : String)
    (hdep : department ≠ "") :
    nearby_response [] department = ([], true) := by
  simp [nearby_response, apply_fallback, sort_hospitals, hdep]

/-- Witness for C9 at a concrete department. -/
theorem C9_fallback_on_empty_candidates_witness :
    nearby_response [] "cardiology" = ([], true) :=
  C9_fallback_on_empty_candidates "cardiology" (by decide)

/- ===================================================================
   Claim C10: inferred specialties and the "Emergency" filter
   =================================================================== -/

/-- An optional singleton followed by a sublist of `l₂` is a sublist of
`a :: l₂`. -/
theorem optional_cons_sublist {α : Type} (c : Bool) (a : α)
    {l₁ l₂ : List α} (h : List.Sublist l₁ l₂) :
    List.Sublist ((if c then [a] else []) ++ l₁) (a :: l₂) := by
  cases c
  · simpa using h.cons a
  · simpa using h.cons₂ a

/-- C10: every inferred specialty list is a subsequence of the fixed
eight-element sequence, and — since none of those strings contains
"emergency" — for any facility whose specialties come from that sequence the
"emergency" department filter reduces to the record's emergency flag. -/
theorem C10_specialties_subseq_emergency_filter :
    (∀ (name_lower : String) (cats_lower : List String),
      List.Sublist (inferred_specialties_of name_lower cats_lower)
        all_inferred_specialties) ∧
    (∀ h : Facility,
      List.Sublist h.specialties all_inferred_specialties →
      matches_department h "emergency" = h.emergency) := by
  constructor
  · intro name_lower cats_lower
    unfold inferred_specialties_of all_inferred_specialties
    refine optional_cons_sublist _ _ ?_
    refine optional_cons_sublist _ _ ?_
    refine optional_cons_sublist _ _ ?_
    refine optional_cons_sublist _ _ ?_
    refine optional_cons_sublist _ _ ?_
    refine optional_cons_sublist _ _ ?_
    refine optional_cons_sublist _ _ ?_
    split <;> simp
  · intro h hsub
    have hall : ∀ s ∈ all_inferred_specialties,
        strInB "emergency" (pyLower s) = false := by decide
    have hany : h.specialties.any
        (fun s => strInB "emergency" (pyLower s)) = false := by
      rw [List.any_eq_false]
      intro s hs
      simp [hall s (hsub.subset hs)]
    have hne : ("emergency" : String) ≠ "" := by decide
    have hlow : pyLower "emergency" = "emergency" := by decide
    simp [matches_department, hne, hlow, hany]

/-- Facility used to exercise the emergency-filter equivalence concretely. -/
def emergency_facility : Facility :=
  { id := "2", name := "General Hospital", address := "High Street 2",
    lat := some 0, lng := some 0, emergency := true,
    phone := "Not available", specialties := ["Cardiology", "Dental"],
    has_specialties := true, rating := 9/2,
    distance_km := some (QFloat.fin 2) }

/-- Witness for C10 at a concrete facility with specialties drawn from the
fixed sequence. -/
theorem C10_specialties_subseq_emergency_filter_witness :
    matches_department emergency_facility "emergency"
      = emergency_facility.emergency :=
  C10_specialties_subseq_emergency_filter.2 emergency_facility (by decide)

/- ===================================================================
   `GET /api/nearby-hospitals` request handling before the outbound call
   (app.py lines 119-167)
   =================================================================== -/

/-- Query parameters of the request, each `Option.none` when absent. -/
structure Args where
  lat : Option String
  lng : Option String
  department : Option String
  radius_m : Option String

/-- Outcome of the handler before/at the outbound call: the 400 client-error
response, the 500 missing-credential response, or the single outbound request
to the places provider with its parameters.  An `Except.error` around this is
an uncaught exception escaping the handler. -/
inductive HandlerStep where
  | badRequest400 : HandlerStep
  | keyMissing500 : HandlerStep
  | callProvider (category : String) (lat lng : ℚ) (radius : ℤ) : HandlerStep
deriving DecidableEq

/-- Department-to-category table `dept_map` (app.py lines 138-153). -/
def dept_map : List (String × String) :=
  [("cardiology", "healthcare"),
   ("neurology", "healthcare"),
   ("dermatology", "healthcare"),
   ("orthopedics", "healthcare"),
   ("gastroenterology", "healthcare"),
   ("pulmonology", "healthcare"),
   ("ent", "healthcare"),
   ("dental", "healthcare.dentist"),
   ("dentistry", "healthcare.dentist"),
   ("emergency", "healthcare.hospital"),
   ("general medicine", "healthcare"),
   ("primary care", "healthcare")]

/-- The guarded coordinate parse (app.py lines 119-123): `float()` applied to
`lat` and then `lng`; a missing parameter is a `TypeError` and an unparseable
one a `ValueError`, both caught and mapped to the 400 response, so the model
only records success or failure.  `pf` is the parse semantics of the Python
`float` builtin (finite floats abstracted as rationals). -/
def parse_lat_lng (pf : String → Option ℚ) (args : Args) :
    Option (ℚ × ℚ) :=
  match args.lat with
  | Option.none => Option.none
  | some s =>
    match pf s with
    | Option.none => Option.none
    | some la =>
      match args.lng with
      | Option.none => Option.none
      | some t =>
        match pf t with
        | Option.none => Option.none
        | some ln => some (la, ln)

/-- The handler from entry to the construction of the outbound request
(app.py lines 119-167): guarded lat/lng parse (400 on failure), department
normalisation, the unguarded `int(request.args.get("radius_m") or 20000)` —
a falsy (absent or empty) parameter defaults to 20000, any other value goes
through `int()`, whose failure is an uncaught `ValueError` — then the
credential check (500 when the key is absent or empty) and the category
lookup.  `pfInt` is the parse semantics of the Python `int` builtin. -/
def nearby_hospitals_entry (pf : String → Option ℚ)
    (pfInt : String → Option ℤ) (geoKey : Option String) (args : Args) :
    Except PyErr HandlerStep :=
  match parse_lat_lng pf args with
  | Option.none => .ok .badRequest400
  | some (lat, lng) =>
    let department := pyLower (pyStrip (args.department.getD ""))
    match (match args.radius_m with
           | Option.none => some (20000 : ℤ)
           | some s => if s = "" then some 20000 else pfInt s) with
    | Option.none => .error .valueError
    | some radius =>
      if geoKey = Option.none ∨ geoKey = some "" then .ok .keyMissing500
      else
        let dept_key := pyLower (pyStrip department)
        let geo_category :=
          match dept_map.lookup dept_key with
          | some c => c
          | Option.none => "healthcare"
        .ok (.callProvider geo_category lat lng radius)

/-- C5: whenever `lat` or `lng` is missing or does not parse as a float, the
handler returns the 400 client-error response, and in particular never
reaches the outbound provider call (whatever the credential and the other
parameters). -/
theorem C5_bad_coords_400_no_call (pf : String → Option ℚ)
    (pfInt : String → Option ℤ) (geoKey : Option String) (args : Args)
    (h : args.lat = Option.none ∨ args.lng = Option.none ∨
      (∃ s, args.lat = some s ∧ pf s = Option.none) ∨
      (∃ s, args.lng = some s ∧ pf s = Option.none)) :
    nearby_hospitals_entry pf pfInt geoKey args = .ok .badRequest400 ∧
    ∀ (category : String) (lat lng : ℚ) (radius : ℤ),
      nearby_hospitals_entry pf pfInt geoKey args
        ≠ .ok (.callProvider category lat lng radius) := by
  have hparse : parse_lat_lng pf args = Option.none := by
    rcases h with h | h | ⟨s, hs, hps⟩ | ⟨s, hs, hps⟩
    · simp [parse_lat_lng, h]
    · rcases hl : args.lat with _ | s
      · simp [parse_lat_lng, hl]
      · rcases hps : pf s with _ | q <;> simp [parse_lat_lng, hl, hps, h]
    · simp [parse_lat_lng, hs, hps]
    · rcases hl : args.lat with _ | t
      · simp [parse_lat_lng, hl]
      · rcases hpt : pf t with _ | q <;>
          simp [parse_lat_lng, hl, hpt, hs, hps]
  refine ⟨by simp [nearby_hospitals_entry, hparse], ?_⟩
  intro category lat lng radius
  simp [nearby_hospitals_entry, hparse]

/-- Value of a decimal digit string. -/
def decVal (l : List Char) : ℕ :=
  l.foldl (fun n c => n * 10 + (c.toNat - 48)) 0

/-- Executable decimal integer parse, used as the concrete instance of the
Python `int` builtin in witnesses: an optional leading minus then a non-empty
run of digits (whitespace/underscore corners of `int()` are not needed at the
witness inputs). -/
def pyInt? (s : String) : Option ℤ :=
  match s.data with
  | [] => Option.none
  | c :: cs =>
    if c = '-' then
      (if cs ≠ [] ∧ cs.all Char.isDigit
        then some (-(decVal cs : ℤ)) else Option.none)
    else
      (if (c :: cs).all Char.isDigit
        then some ((decVal (c :: cs) : ℤ)) else Option.none)

/-- Concrete instance of the Python `float` parse for witnesses: an integer
literal read as a rational. -/
def pyFloatOfIntStr? (s : String) : Option ℚ :=
  (pyInt? s).map (fun z => (z : ℚ))

/-- Witness for C5: a request with no `lat` parameter. -/
theorem C5_bad_coords_400_no_call_witness :
    nearby_hospitals_entry pyFloatOfIntStr? pyInt?
      (some "key") ⟨Option.none, some "77", Option.none, Option.none⟩
      = .ok .badRequest400 :=
  (C5_bad_coords_400_no_call pyFloatOfIntStr? pyInt?
    (some "key") ⟨Option.none, some "77", Option.none, Option.none⟩
    (Or.inl rfl)).1

/-- C8: when the coordinates parse but `radius_m` is present, non-empty and
not parseable as an integer, the handler raises an uncaught `ValueError`
from the unguarded `int()` conversion — whatever the credential, so before
the credential check and before any outbound call — instead of returning the
400 response. -/
theorem C8_radius_uncaught_valueerror (pf : String → Option ℚ)
    (pfInt : String → Option ℤ) (geoKey : Option String) (args : Args)
    (la ln : ℚ) (s : String)
    (hparse : parse_lat_lng pf args = some (la, ln))
    (hr : args.radius_m = some s) (hs : s ≠ "")
    (hpi : pfInt s = Option.none) :
    nearby_hospitals_entry pf pfInt geoKey args = .error .valueError ∧
    nearby_hospitals_entry pf pfInt geoKey args ≠ .ok .badRequest400 ∧
    ∀ (category : String) (lat lng : ℚ) (radius : ℤ),
      nearby_hospitals_entry pf pfInt geoKey args
        ≠ .ok (.callProvider category lat lng radius) := by
  have hmain : nearby_hospitals_entry pf pfInt geoKey args
      = .error .valueError := by
    simp [nearby_hospitals_entry, hparse, hr, hs, hpi]
  refine ⟨hmain, by simp [hmain], ?_⟩
  intro category lat lng radius
  simp [hmain]

/-- Witness for C8: `radius_m=abc` with coordinates that parse. -/
theorem C8_radius_uncaught_valueerror_witness :
    nearby_hospitals_entry pyFloatOfIntStr? pyInt?
      (some "key") ⟨some "28", some "77", Option.none, some "abc"⟩
      = .error .valueError :=
  (C8_radius_uncaught_valueerror pyFloatOfIntStr? pyInt?
    (some "key") ⟨some "28", some "77", Option.none, some "abc"⟩
    28 77 "abc" (by decide) rfl (by decide) (by decide)).1

/-- C8 counterexample: `?radius_m=` — the parameter present with the empty
value, which `int()` cannot parse — raises nothing: `"" or 20000` is falsy
and short-circuits to the default, so the handler proceeds all the way to
the provider call instead of raising the ValueError the frozen claim
predicts for every present-but-unparseable `radius_m`. -/
theorem C8_empty_radius_counterexample :
    pyInt? "" = Option.none ∧
    nearby_hospitals_entry pyFloatOfIntStr? pyInt? (some "key")
        ⟨some "28", some "77", Option.none, some ""⟩
      = .ok (.callProvider "healthcare" 28 77 20000) ∧
    nearby_hospitals_entry pyFloatOfIntStr? pyInt? (some "key")
        ⟨some "28", some "77", Option.none, some ""⟩ ≠ .error .valueError := by
  have heq : nearby_hospitals_entry pyFloatOfIntStr? pyInt? (some "key")
      ⟨some "28", some "77", Option.none, some ""⟩
      = .ok (.callProvider "healthcare" 28 77 20000) := rfl
  refine ⟨rfl, heq, ?_⟩
  rw [heq]
  exact fun hcon => Except.noConfusion hcon
